import Mathlib

/-!
Shallow embedding of `src/src/plugin/Component.h` from the `bro` repository:
the plugin component descriptor (`plugin::Component`), its classification
enumeration (`plugin::component::Type`), and its description contract against
an append-only text sink (`ODesc`).

The repository ships only the header; the member-function bodies live in a
`Component.cc` that is not part of the sources here.  Definitions whose doc
comment starts with `Modelled from the spec:` embed those missing bodies,
following the specification's words; everything else is read off the header.
-/

namespace plugin

namespace component

/-- The closed classification enumeration `plugin::component::Type` from the
header, with its seven enumerators in declaration order. -/
inductive «Type» where
| READER
| WRITER
| ANALYZER
| FILE_ANALYZER
| IOSOURCE
| PKTSRC
| PKTDUMPER
deriving DecidableEq, Repr, Fintype

/-- The underlying integer value of each enumerator.  The C++ enumeration has
no explicit initializers, so by the language rule each enumerator takes the
value of its position in declaration order, starting at 0. -/
def «Type».val : «Type» → Nat
| .READER => 0
| .WRITER => 1
| .ANALYZER => 2
| .FILE_ANALYZER => 3
| .IOSOURCE => 4
| .PKTSRC => 5
| .PKTDUMPER => 6

/-- Modelled from the spec: the textual token naming a classification tag, used
by the default `Describe` output (the body of `Component::Describe` is in the
missing `Component.cc`).  The spec's example scenarios use the enumerator
names themselves as tokens (for instance `"ANALYZER HTTP"`). -/
def «Type».tag : «Type» → String
| .READER => "READER"
| .WRITER => "WRITER"
| .ANALYZER => "ANALYZER"
| .FILE_ANALYZER => "FILE_ANALYZER"
| .IOSOURCE => "IOSOURCE"
| .PKTSRC => "PKTSRC"
| .PKTDUMPER => "PKTDUMPER"

end component

/-- The description sink `ODesc` (an external collaborator, forward-declared in
the header).  The spec describes it as an opaque append-only text builder, so
it is embedded as the list of textual fragments added so far. -/
structure ODesc where
out : List String
deriving DecidableEq, Repr

/-- Appending one textual fragment to the sink. -/
def ODesc.Add (d : ODesc) (s : String) : ODesc := ⟨d.out ++ [s]⟩

/-- The `plugin::Component` descriptor.  Its data members are read off the
header: `component::Type type` and a by-value `std::string name`.  The virtual
hook `DoDescribe` is embedded as a sink transformer carried by the value, which
models virtual dispatch to the concrete variant. -/
structure Component where
type : component.«Type»
name : String
DoDescribe : ODesc → ODesc

/-- Modelled from the spec: the body of `Component::Component` is in the
missing `Component.cc`.  Construction fixes the classification and the name
permanently; the base class leaves the `DoDescribe` hook at its default, which
the header defines inline as a no-op (`{ }`). -/
def Component.construct (t : component.«Type») (n : String) : Component :=
⟨t, n, fun d => d⟩

/-- A concrete component variant that overrides the `DoDescribe` hook, as a
derived class would.  The classification and name are still fixed at
construction; only the hook differs from the base default. -/
def Component.constructWithHook (t : component.«Type») (n : String)
(hook : ODesc → ODesc) : Component :=
⟨t, n, hook⟩

/-- Modelled from the spec: the body of `Component::Type` is in the missing
`Component.cc`.  A pure accessor returning the stored classification. -/
def Component.«Type» (c : Component) : component.«Type» := c.type

/-- Modelled from the spec: the body of `Component::Name` is in the missing
`Component.cc`.  A pure accessor returning the stored name. -/
def Component.Name (c : Component) : String := c.name

/-- Modelled from the spec: the body of `Component::Describe` is in the missing
`Component.cc`.  Per §4.1 it emits the classification tag and the name into the
sink, in that order, and then invokes the `DoDescribe` hook so a variant can
append type-specific detail after the base prefix. -/
def Component.Describe (c : Component) (d : ODesc) : ODesc :=
c.DoDescribe ((d.Add c.type.tag).Add c.name)

/-- `Component::Type` as a call on the object state: the method is declared
`const` in the header, so the object after the call is the object before it. -/
def Component.TypeCall (c : Component) : component.«Type» × Component :=
(c.«Type», c)

/-- `Component::Name` as a call on the object state: the method is declared
`const` in the header, so the object after the call is the object before it. -/
def Component.NameCall (c : Component) : String × Component :=
(c.Name, c)

/-- `Component::Describe` as a call on the object state: the method is declared
`const` in the header, so it may rebuild the sink but the object after the call
is the object before it. -/
def Component.DescribeCall (c : Component) (d : ODesc) : ODesc × Component :=
(c.Describe d, c)

/-- A mutable store of strings, used to model a caller-owned `std::string`
object that the caller may overwrite after constructing a component.  The
constructor takes the name by `const` reference but the member `name` is a
by-value `std::string`, so construction copies the referenced value. -/
def StringHeap := Nat → String

/-- Construct a component from a string object living in the caller's store:
the constructor dereferences the caller's string and copies its current value
into the by-value member. -/
def Component.constructFromRef (t : component.«Type») (h : StringHeap)
(r : Nat) : Component :=
Component.construct t (h r)

/-- Overwriting one string object in the caller's store. -/
def StringHeap.write (h : StringHeap) (r : Nat) (s : String) : StringHeap :=
fun i => if i = r then s else h i

/-- Construct a component from the caller's string object, then overwrite that
string object, then ask the component for its name and read back the caller's
string from the updated store.  Used to observe whether the stored name
aliases the caller's string. -/
def nameAfterOverwrite (t : component.«Type») (h : StringHeap) (r : Nat)
(s : String) : String × String :=
let c := Component.constructFromRef t h r
let h2 := StringHeap.write h r s
(c.Name, h2 r)

/-- Claim C1: constructing a component with any classification and name and
then calling `Type()` and `Name()` returns exactly the constructed
classification and name (identity round-trip). -/
theorem construct_type_name_roundtrip (t : component.«Type») (n : String) :
    (Component.construct t n).«Type» = t ∧ (Component.construct t n).Name = n :=
  ⟨rfl, rfl⟩

/-- Claim C2: on a component whose `DoDescribe` hook is not overridden,
`Describe` appends to the sink exactly the classification tag and then the
name, and nothing else. -/
theorem describe_default_exact (t : component.«Type») (n : String) (d : ODesc) :
    ((Component.construct t n).Describe d).out = d.out ++ [t.tag, n] := by
  simp [Component.Describe, Component.construct, ODesc.Add]

/-- Claim C3: on a component whose `DoDescribe` hook appends extra text,
`Describe` produces the base output (classification tag, then name) followed by
the hook's extra text; the hook runs after the base prefix is emitted and the
base prefix is never altered by the override. -/
theorem describe_hook_appends_after_base (t : component.«Type») (n : String)
    (hook : ODesc → ODesc) (extra : List String) (d : ODesc)
    (hhook : ∀ e : ODesc, (hook e).out = e.out ++ extra) :
    ((Component.constructWithHook t n hook).Describe d).out =
      d.out ++ [t.tag, n] ++ extra := by
  simp [Component.Describe, Component.constructWithHook, ODesc.Add, hhook]

/-- Witness for claim C3, the spec's example scenario: a `PKTSRC` component
named `"libpcap"` whose hook appends `" (live capture)"` describes itself as
`PKTSRC`, `libpcap`, ` (live capture)` on an empty sink. -/
theorem describe_hook_appends_after_base_witness :
    ((Component.constructWithHook component.«Type».PKTSRC "libpcap"
        (fun e => e.Add " (live capture)")).Describe ⟨[]⟩).out =
      ["PKTSRC", "libpcap", " (live capture)"] := by
  have h := describe_hook_appends_after_base component.«Type».PKTSRC "libpcap"
    (fun e => e.Add " (live capture)") [" (live capture)"] ⟨[]⟩ (fun e => rfl)
  simpa using h

/-- Claim C5: the classification enumeration is a closed set of exactly the
seven variants `READER`, `WRITER`, `ANALYZER`, `FILE_ANALYZER`, `IOSOURCE`,
`PKTSRC`, `PKTDUMPER`, and no others. -/
theorem type_enum_closed_seven :
    (∀ t : component.«Type»,
      t ∈ [component.«Type».READER, component.«Type».WRITER,
           component.«Type».ANALYZER, component.«Type».FILE_ANALYZER,
           component.«Type».IOSOURCE, component.«Type».PKTSRC,
           component.«Type».PKTDUMPER]) ∧
    [component.«Type».READER, component.«Type».WRITER,
     component.«Type».ANALYZER, component.«Type».FILE_ANALYZER,
     component.«Type».IOSOURCE, component.«Type».PKTSRC,
     component.«Type».PKTDUMPER].Nodup ∧
    Fintype.card component.«Type» = 7 := by
  refine ⟨?_, ?_, ?_⟩ <;> decide

/-- Claim C6: two components constructed with the same classification but
different names are distinguishable via `Name()`; two constructed with the
same name but different classifications are distinguishable via `Type()`. -/
theorem distinguishable_by_name_and_type :
    (∀ (t : component.«Type») (n1 n2 : String), n1 ≠ n2 →
      (Component.construct t n1).Name ≠ (Component.construct t n2).Name) ∧
    (∀ (t1 t2 : component.«Type») (n : String), t1 ≠ t2 →
      (Component.construct t1 n).«Type» ≠ (Component.construct t2 n).«Type») :=
  ⟨fun _ _ _ hne => hne, fun _ _ _ hne => hne⟩

/-- Witness for claim C6: two `ANALYZER` components named `"HTTP"` and `"IRC"`
differ via `Name()`, and a `PKTSRC` and a `PKTDUMPER` component both named
`"libpcap"` differ via `Type()`. -/
theorem distinguishable_by_name_and_type_witness :
    (Component.construct component.«Type».ANALYZER "HTTP").Name ≠
      (Component.construct component.«Type».ANALYZER "IRC").Name ∧
    (Component.construct component.«Type».PKTSRC "libpcap").«Type» ≠
      (Component.construct component.«Type».PKTDUMPER "libpcap").«Type» :=
  ⟨distinguishable_by_name_and_type.1 component.«Type».ANALYZER "HTTP" "IRC"
      (by decide),
   distinguishable_by_name_and_type.2 component.«Type».PKTSRC
      component.«Type».PKTDUMPER "libpcap" (by decide)⟩

/-- Claim C7: a component is immutable after construction: each of the three
operations (`Type()`, `Name()`, `Describe()`), declared `const` in the header,
leaves the object — in particular its stored classification and name —
unchanged, and the structure exposes no mutating operation. -/
theorem operations_leave_component_unchanged (c : Component) (d : ODesc) :
    c.TypeCall.2 = c ∧ c.NameCall.2 = c ∧ (c.DescribeCall d).2 = c :=
  ⟨rfl, rfl, rfl⟩

/-- Claim C8: none of the operations has a failure path: on every fully
constructed component, `Type()`, `Name()` and `Describe()` each return a
result unconditionally, with no precondition on the component or the sink. -/
theorem operations_total (c : Component) (d : ODesc) :
    (∃ t, c.«Type» = t) ∧ (∃ n, c.Name = n) ∧ (∃ r, c.Describe d = r) :=
  ⟨⟨c.«Type», rfl⟩, ⟨c.Name, rfl⟩, ⟨c.Describe d, rfl⟩⟩

/-- Claim C9: the component stores its own copy of the name: after the caller
overwrites the string object that was passed to the constructor, `Name()`
still returns the value the string held at construction time, even though the
caller's string now holds the new value. -/
theorem name_independent_of_overwrite (t : component.«Type») (h : StringHeap)
    (r : Nat) (s : String) :
    (nameAfterOverwrite t h r s).1 = h r ∧ (nameAfterOverwrite t h r s).2 = s := by
  constructor <;>
    simp [nameAfterOverwrite, Component.constructFromRef, Component.construct,
      Component.Name, StringHeap.write]

/-- Claim C10: the seven enumerators carry the underlying integer values of
their declaration order: `READER` = 0 through `PKTDUMPER` = 6. -/
theorem type_enum_values :
    component.«Type».val component.«Type».READER = 0 ∧
    component.«Type».val component.«Type».WRITER = 1 ∧
    component.«Type».val component.«Type».ANALYZER = 2 ∧
    component.«Type».val component.«Type».FILE_ANALYZER = 3 ∧
    component.«Type».val component.«Type».IOSOURCE = 4 ∧
    component.«Type».val component.«Type».PKTSRC = 5 ∧
    component.«Type».val component.«Type».PKTDUMPER = 6 := by
  decide

end plugin
